import Mathlib

/-!
Verification development for the document-AI backend's job pipeline.

The definitions below are a shallow embedding of the TypeScript sources:
`JobsService` (createJob, getJobById, updateJobStatus), `JobsController`
(status and download endpoints for authenticated and guest requests),
`UploadService.getPresignedUrl`, `SqsProducer.sendJobMessage` and the
`generateDownloadUrl` presign helper.  The TypeORM repository is modelled
as a list of rows, the SQS queue as a list of messages, and the `uuid()`
library call as an injective token supply indexed by a counter held in the
system state.  JavaScript truthiness of optional strings (`if (userId)`,
`x || fallback`) is modelled explicitly.
-/

namespace DocumentAI

/-- The closed document-type enumeration from `CreateJobDto` / `jobs.entity.ts`. -/
inductive DocumentType where
  | EXPENSE
  | HR
  deriving DecidableEq, Repr

/-- String form of a document type, as serialized into the SQS payload. -/
def DocumentType.toStr : DocumentType → String
  | .EXPENSE => "EXPENSE"
  | .HR => "HR"

/-- A row of the `jobs` table (`jobs.entity.ts`).  `outputFileKey` and
`errorMessage` are nullable columns, modelled as `Option String`. -/
structure Job where
  id : String
  userId : String
  inputFileKey : String
  inputFileType : String
  documentType : DocumentType
  status : String
  outputFileKey : Option String := none
  errorMessage : Option String := none
  deriving DecidableEq, Repr

/-- The SQS work-message payload sent by `SqsProducer.sendJobMessage`. -/
structure WorkMessage where
  jobId : String
  inputFileKey : String
  documentType : String
  deriving DecidableEq, Repr

/-- Model of the `uuid()` v4 generator: an injective supply of string
tokens indexed by how many tokens have been drawn so far. -/
def uuidOf (n : Nat) : String := String.mk (List.replicate (n + 1) 'u')

/-- Backend state: the `jobs` table, the SQS queue, and the uuid counter. -/
structure SystemState where
  jobs : List Job
  queue : List WorkMessage
  nextUuid : Nat
  deriving Repr

/-- JavaScript `x || fallback` on an optional string: the fallback is used
when `x` is absent or the empty string (both are falsy). -/
def jsOrString (x : Option String) (fallback : String) : String :=
  match x with
  | some s => if s = "" then fallback else s
  | none => fallback

/-- JavaScript truthiness of an optional string: absent and `""` are falsy. -/
def truthy : Option String → Bool
  | some s => !(s == "")
  | none => false

/-- JavaScript `split('.')` on a character list, by structural recursion
(so that it computes in proofs): splitting the empty text yields one empty
segment, a dot opens a fresh segment, any other character extends the
first segment. -/
def splitDotAux : List Char → List (List Char)
  | [] => [[]]
  | c :: rest =>
    let r := splitDotAux rest
    if c = '.' then [] :: r
    else
      match r with
      | [] => [[c]]
      | h :: t => (c :: h) :: t

/-- JavaScript `str.split('.')` as a list of strings. -/
def jsSplitDot (s : String) : List String :=
  (splitDotAux s.data).map String.mk

/-- `inputFileKey.split('.').pop() || 'unknown'` from `JobsService.createJob`:
the last `.`-separated segment, with the `'unknown'` fallback taken exactly
when that segment is falsy (the empty string). -/
def deriveExtension (key : String) : String :=
  jsOrString (jsSplitDot key).getLast? "unknown"

/-- Parameters of `JobsService.createJob`; `userId` is optional. -/
structure CreateJobParams where
  userId : Option String := none
  inputFileKey : String
  documentType : DocumentType

/-- `JobsService.createJob`: derive the extension, build the row with a
fresh uuid, `status = 'PENDING'` and `userId` defaulting to `'guest'`,
save it, then enqueue the work message.  Returns the saved job and the
updated state. -/
def createJob (st : SystemState) (p : CreateJobParams) : Job × SystemState :=
  let extension := deriveExtension p.inputFileKey
  let job : Job :=
    { id := uuidOf st.nextUuid
      userId := jsOrString p.userId "guest"
      inputFileKey := p.inputFileKey
      inputFileType := extension
      documentType := p.documentType
      status := "PENDING" }
  let msg : WorkMessage :=
    { jobId := job.id, inputFileKey := job.inputFileKey
      documentType := job.documentType.toStr }
  (job, { jobs := st.jobs ++ [job], queue := st.queue ++ [msg]
          nextUuid := st.nextUuid + 1 })

/-- `JobsService.getJobById`: with a truthy `userId` the lookup filters on
both `id` and `userId`; otherwise it looks up by `id` alone. -/
def getJobById (jobs : List Job) (jobId : String) (userId : Option String) :
    Option Job :=
  if truthy userId then
    jobs.find? fun j => j.id == jobId && j.userId == userId.getD ""
  else
    jobs.find? fun j => j.id == jobId

/-- The optional `extra` argument of `JobsService.updateJobStatus`. -/
structure UpdateExtra where
  outputFileKey : Option String := none
  errorMessage : Option String := none
  deriving DecidableEq, Repr

/-- Effect of `repository.update(jobId, { status, ...extra })` on a single
row: `status` is overwritten unconditionally; each extra field overwrites
the column exactly when present in the spread object. -/
def applyUpdate (j : Job) (status : String) (e : UpdateExtra) : Job :=
  { j with
    status := status
    outputFileKey :=
      match e.outputFileKey with
      | some v => some v
      | none => j.outputFileKey
    errorMessage :=
      match e.errorMessage with
      | some v => some v
      | none => j.errorMessage }

/-- `JobsService.updateJobStatus`: update the row keyed by `jobId`. -/
def updateJobStatus (jobs : List Job) (jobId : String) (status : String)
    (e : UpdateExtra) : List Job :=
  jobs.map fun j => if j.id == jobId then applyUpdate j status e else j

/-- The body returned by `JobsController.createJob` and `createGuestJob`:
exactly the job's id and status, no other field. -/
structure CreateJobResponse where
  jobId : String
  status : String
  deriving DecidableEq, Repr

/-- Outcomes of the status endpoints.  `notFound` is the 404 body
`\x7bstatusCode: 404, message: 'Job not found'\x7d`; there is no
forbidden-style outcome in the controller. -/
inductive StatusReadResult where
  | notFound
  | failed (jobId status error : String)
  | ok (jobId status : String)
  deriving DecidableEq, Repr

/-- Shared body of `JobsController.getJobStatus` and `getGuestJobStatus`
(the two handlers are textually identical apart from the identity passed
to `getJobById`). -/
def getJobStatusWith (jobs : List Job) (jobId : String)
    (ident : Option String) : StatusReadResult :=
  match getJobById jobs jobId ident with
  | none => .notFound
  | some job =>
    if job.status == "FAILED" then
      .failed job.id job.status (jsOrString job.errorMessage "Processing failed")
    else
      .ok job.id job.status

/-- `GET /jobs/:id/status` (authenticated): identity from the JWT. -/
def getJobStatus (jobs : List Job) (userId : String) (jobId : String) :
    StatusReadResult :=
  getJobStatusWith jobs jobId (some userId)

/-- `GET /jobs/guest/:id/status`: no identity is passed. -/
def getGuestJobStatus (jobs : List Job) (jobId : String) : StatusReadResult :=
  getJobStatusWith jobs jobId none

/-- A presigned URL as issued by `getSignedUrl`: the HTTP method of the
underlying command, the bucket, key, content type and `expiresIn` bound. -/
structure PresignedUrl where
  method : String
  bucket : String
  key : String
  contentType : String := ""
  expiresIn : Nat
  deriving DecidableEq, Repr

/-- `generateDownloadUrl` (s3.presign.ts): a GET presign with
`expiresIn: 300`. -/
def generateDownloadUrl (bucket key : String) : PresignedUrl :=
  { method := "GET", bucket := bucket, key := key, expiresIn := 300 }

/-- Outcomes of the download endpoints: 404 not found, 202 still
processing, 400 failed, 200 with the presigned download URL. -/
inductive DownloadResult where
  | notFound
  | stillProcessing (status : String)
  | failedOutcome (error : String)
  | okUrl (downloadUrl : PresignedUrl)
  deriving DecidableEq, Repr

/-- True exactly on the 200 outcome that carries a download URL. -/
def DownloadResult.isOkUrl : DownloadResult → Bool
  | .okUrl _ => true
  | _ => false

/-- Shared body of `JobsController.downloadJobResult` and
`downloadGuestJobResult` (textually identical apart from the identity). -/
def downloadJobResultWith (bucket : String) (jobs : List Job)
    (jobId : String) (ident : Option String) : DownloadResult :=
  match getJobById jobs jobId ident with
  | none => .notFound
  | some job =>
    if job.status == "PROCESSING" || job.status == "PENDING" then
      .stillProcessing job.status
    else if job.status == "FAILED" then
      .failedOutcome (jsOrString job.errorMessage "Processing failed")
    else
      .okUrl (generateDownloadUrl bucket (job.outputFileKey.getD ""))

/-- Result of `UploadService.getPresignedUrl`: the url and the key. -/
structure UploadGrant where
  url : PresignedUrl
  key : String
  deriving DecidableEq, Repr

/-- `UploadService.getPresignedUrl`: key `uploads/<uuid>-<fileName>`,
a PUT presign with `expiresIn: 300`.  The uuid counter is threaded
explicitly; the call returns the grant and the advanced counter. -/
def getPresignedUrl (bucket : String) (n : Nat)
    (fileName contentType : String) : UploadGrant × Nat :=
  let key := "uploads/" ++ uuidOf n ++ "-" ++ fileName
  ({ url := { method := "PUT", bucket := bucket, key := key
              contentType := contentType, expiresIn := 300 }
     key := key }, n + 1)

/-- The raw request body of `POST /jobs` before validation. -/
structure RawCreateJobDto where
  inputFileKey : String
  documentType : String
  deriving DecidableEq, Repr

/-- The `@IsIn(['EXPENSE', 'HR'])` check of `CreateJobDto`, which doubles
as parsing into the closed enumeration. -/
def parseDocumentType (s : String) : Option DocumentType :=
  if s = "EXPENSE" then some .EXPENSE
  else if s = "HR" then some .HR
  else none

/-- Outcome of the create-job endpoints: a class-validator rejection or a
created response. -/
inductive CreateJobOutcome where
  | validationError
  | created (resp : CreateJobResponse)
  deriving DecidableEq, Repr

/-- Modelled from the spec: the NestJS validation-pipe wiring that enforces
the `CreateJobDto` decorators (`@IsString @IsNotEmpty inputFileKey`,
`@IsIn(['EXPENSE','HR']) documentType`) is not among the provided sources;
per the spec a submission failing validation is rejected synchronously
with no job created and no message enqueued.  On a valid body the handler
runs `JobsService.createJob` and returns `\x7bjobId, status\x7d`. -/
def createJobEndpoint (st : SystemState) (userId : Option String)
    (dto : RawCreateJobDto) : CreateJobOutcome × SystemState :=
  match parseDocumentType dto.documentType with
  | none => (.validationError, st)
  | some dt =>
    if dto.inputFileKey = "" then (.validationError, st)
    else
      let r := createJob st
        { userId := userId, inputFileKey := dto.inputFileKey
          documentType := dt }
      (.created { jobId := r.1.id, status := r.1.status }, r.2)

/-- Invariant tying the uuid supply to the table: every stored row's id was
drawn from the supply at an index below the current counter. -/
def idsFresh (st : SystemState) : Prop :=
  ∀ j ∈ st.jobs, ∃ k, k < st.nextUuid ∧ j.id = uuidOf k

/-- The spec's visibility rule, written from the spec's words for
comparison with the code: visible iff the resolved identity equals
`ownerId` or `ownerId` is the anonymous sentinel.  The spec's Access
Resolver resolves an anonymous request to the sentinel itself. -/
def specVisible (j : Job) (resolvedIdentity : String) : Bool :=
  j.userId == resolvedIdentity || j.userId == "guest"

/-- Non-emptiness of a nullable string column. -/
def optNonEmpty : Option String → Bool
  | some s => !(s == "")
  | none => false

/-- The data-model invariant of claim C3: `outputFileKey` non-empty iff
`COMPLETED`, `errorMessage` non-empty iff `FAILED`. -/
def jobInvariant (j : Job) : Bool :=
  (optNonEmpty j.outputFileKey == (j.status == "COMPLETED")) &&
  (optNonEmpty j.errorMessage == (j.status == "FAILED"))

/-- A terminal status. -/
def isTerminal (s : String) : Bool :=
  s == "COMPLETED" || s == "FAILED"

/-- An update that follows the spec's transition table and sets exactly the
field its target state requires. -/
def allowedUpdate (j : Job) (status : String) (e : UpdateExtra) : Bool :=
  (status == "PROCESSING" && j.status == "PENDING"
    && e.outputFileKey == none && e.errorMessage == none) ||
  (status == "COMPLETED" && j.status == "PROCESSING"
    && e.errorMessage == none && optNonEmpty e.outputFileKey) ||
  (status == "FAILED" && (j.status == "PENDING" || j.status == "PROCESSING")
    && e.outputFileKey == none && optNonEmpty e.errorMessage)

/-- Fold a sequence of updates over one job row. -/
def applyUpdates (j : Job) : List (String × UpdateExtra) → Job
  | [] => j
  | (s, e) :: rest => applyUpdates (applyUpdate j s e) rest

/-- Every update of the sequence is allowed at the state it is applied in. -/
def allowedSeq (j : Job) : List (String × UpdateExtra) → Bool
  | [] => true
  | (s, e) :: rest => allowedUpdate j s e && allowedSeq (applyUpdate j s e) rest

theorem uuidOf_injective {m n : Nat} (h : uuidOf m = uuidOf n) : m = n := by
  have hd : List.replicate (m + 1) 'u' = List.replicate (n + 1) 'u' :=
    congrArg String.data h
  have hl := congrArg List.length hd
  simp at hl
  omega

theorem jsOrString_ne_empty (x : Option String) {fallback : String}
    (hf : fallback ≠ "") : jsOrString x fallback ≠ "" := by
  cases x with
  | none => simpa [jsOrString] using hf
  | some s =>
    by_cases hs : s = ""
    · simpa [jsOrString, hs] using hf
    · simpa [jsOrString, hs] using hs

/-- Claim C9: an upload grant's key is `uploads/<token>-<fileName>` for the
freshly drawn token (distinct from the token of every other call of the
supply), and the URL is a PUT (write-capable) presign whose validity bound
is exactly 300 seconds. -/
theorem getPresignedUrl_grant (bucket : String) (n m : Nat)
    (fileName contentType : String) (hm : m ≠ n) :
    (getPresignedUrl bucket n fileName contentType).1.key
        = "uploads/" ++ uuidOf n ++ "-" ++ fileName ∧
    (getPresignedUrl bucket n fileName contentType).1.url.key
        = (getPresignedUrl bucket n fileName contentType).1.key ∧
    (getPresignedUrl bucket n fileName contentType).1.url.method = "PUT" ∧
    (getPresignedUrl bucket n fileName contentType).1.url.expiresIn = 300 ∧
    (getPresignedUrl bucket n fileName contentType).2 = n + 1 ∧
    uuidOf m ≠ uuidOf n :=
  ⟨rfl, rfl, rfl, rfl, rfl, fun h => hm (uuidOf_injective h)⟩

/-- Witness for `getPresignedUrl_grant` at `fileName = "r.jpg"`. -/
theorem getPresignedUrl_grant_witness :
    (getPresignedUrl "bucket" 1 "r.jpg" "image/jpeg").1.key
        = "uploads/" ++ uuidOf 1 ++ "-" ++ "r.jpg" ∧
    (getPresignedUrl "bucket" 1 "r.jpg" "image/jpeg").1.url.key
        = (getPresignedUrl "bucket" 1 "r.jpg" "image/jpeg").1.key ∧
    (getPresignedUrl "bucket" 1 "r.jpg" "image/jpeg").1.url.method = "PUT" ∧
    (getPresignedUrl "bucket" 1 "r.jpg" "image/jpeg").1.url.expiresIn = 300 ∧
    (getPresignedUrl "bucket" 1 "r.jpg" "image/jpeg").2 = 1 + 1 ∧
    uuidOf 0 ≠ uuidOf 1 :=
  getPresignedUrl_grant "bucket" 1 0 "r.jpg" "image/jpeg" (by decide)

/-- Claim C10: a status read of a FAILED job carries an error text that is
never empty: the job's `errorMessage` when that is a non-empty string, and
the fallback `'Processing failed'` otherwise. -/
theorem getJobStatus_failed_error (jobs : List Job) (jobId : String)
    (ident : Option String) (j : Job)
    (hfind : getJobById jobs jobId ident = some j)
    (hst : j.status = "FAILED") :
    getJobStatusWith jobs jobId ident
      = .failed j.id j.status (jsOrString j.errorMessage "Processing failed") ∧
    jsOrString j.errorMessage "Processing failed" ≠ "" ∧
    (optNonEmpty j.errorMessage = true →
      jsOrString j.errorMessage "Processing failed" = j.errorMessage.getD "") ∧
    (optNonEmpty j.errorMessage = false →
      jsOrString j.errorMessage "Processing failed" = "Processing failed") := by
  refine ⟨?_, jsOrString_ne_empty _ (by decide), ?_, ?_⟩
  · simp [getJobStatusWith, hfind, hst]
  · intro h
    cases hj : j.errorMessage with
    | none => simp [optNonEmpty, hj] at h
    | some s =>
      rw [hj] at h
      have hs : s ≠ "" := by simpa [optNonEmpty] using h
      simp [jsOrString, hs]
  · intro h
    cases hj : j.errorMessage with
    | none => simp [jsOrString]
    | some s =>
      rw [hj] at h
      have hs : s = "" := by simpa [optNonEmpty] using h
      simp [jsOrString, hs]

/-- A concrete FAILED job used to witness the FAILED-read theorems. -/
def failedJob : Job :=
  { id := "j1", userId := "guest", inputFileKey := "a.pdf"
    inputFileType := "pdf", documentType := .EXPENSE
    status := "FAILED", errorMessage := some "boom" }

/-- Witness for `getJobStatus_failed_error` on a concrete FAILED job. -/
theorem getJobStatus_failed_error_witness :
    getJobStatusWith [failedJob] "j1" none
      = .failed failedJob.id failedJob.status
          (jsOrString failedJob.errorMessage "Processing failed") ∧
    jsOrString failedJob.errorMessage "Processing failed" ≠ "" ∧
    (optNonEmpty failedJob.errorMessage = true →
      jsOrString failedJob.errorMessage "Processing failed"
        = failedJob.errorMessage.getD "") ∧
    (optNonEmpty failedJob.errorMessage = false →
      jsOrString failedJob.errorMessage "Processing failed"
        = "Processing failed") :=
  getJobStatus_failed_error [failedJob] "j1" none failedJob
    (by decide) (by decide)

/-- Claim C7: a submission whose `documentType` is outside the closed
enumeration is rejected with a validation error and leaves the state (job
table and queue) untouched. -/
theorem createJobEndpoint_invalid_documentType (st : SystemState)
    (uid : Option String) (dto : RawCreateJobDto)
    (h1 : dto.documentType ≠ "EXPENSE") (h2 : dto.documentType ≠ "HR") :
    createJobEndpoint st uid dto = (.validationError, st) := by
  simp [createJobEndpoint, parseDocumentType, h1, h2]

/-- Witness for `createJobEndpoint_invalid_documentType` at
`documentType = "INVOICE"`. -/
theorem createJobEndpoint_invalid_documentType_witness :
    createJobEndpoint ⟨[], [], 0⟩ none
        { inputFileKey := "a.pdf", documentType := "INVOICE" }
      = (.validationError, ⟨[], [], 0⟩) :=
  createJobEndpoint_invalid_documentType ⟨[], [], 0⟩ none
    { inputFileKey := "a.pdf", documentType := "INVOICE" }
    (by decide) (by decide)

/-- Claim C5 counterexample: for `inputFileKey = "uploads/abc"`, which
contains no extension delimiter, the created job's `inputFileType` is the
whole key `"uploads/abc"`, not the sentinel `"unknown"` the claim
requires (`split('.').pop()` on a dot-free string returns the string). -/
theorem createJob_no_dot_counterexample :
    (createJob ⟨[], [], 0⟩
        { userId := none, inputFileKey := "uploads/abc"
          documentType := .EXPENSE }).1.inputFileType = "uploads/abc" ∧
    "uploads/abc" ≠ "unknown" := by
  constructor
  · decide
  · decide

/-- Claim C5 (amended): the created job's `inputFileType` is
`deriveExtension inputFileKey`: the last `.`-separated segment of the key
when that segment is non-empty — the suffix after the last dot when a dot
exists, the whole key when none does — and `"unknown"` exactly when that
last segment is empty (key empty or ending in a dot). -/
theorem createJob_inputFileType (st : SystemState) (p : CreateJobParams) :
    (createJob st p).1.inputFileType = deriveExtension p.inputFileKey ∧
    deriveExtension "uploads/abc-invoice.pdf" = "pdf" ∧
    deriveExtension "uploads/abc" = "uploads/abc" ∧
    deriveExtension "uploads/abc." = "unknown" ∧
    deriveExtension "" = "unknown" ∧
    deriveExtension "a.b.c" = "c" := by
  refine ⟨rfl, ?_, ?_, ?_, ?_, ?_⟩ <;> decide

/-- Claim C4 counterexample: a job brought to the terminal state COMPLETED
through the entry points is moved back to PENDING by a later
`updateJobStatus` call — the entry point has no terminal-state guard. -/
theorem updateJobStatus_exits_terminal_counterexample :
    (updateJobStatus
        (updateJobStatus
          (createJob ⟨[], [], 0⟩
            { userId := some "u1", inputFileKey := "a.pdf"
              documentType := .EXPENSE }).2.jobs
          (uuidOf 0) "COMPLETED" ⟨some "o.xlsx", none⟩)
        (uuidOf 0) "PENDING" ⟨none, none⟩).map Job.status = ["PENDING"] ∧
    ((updateJobStatus
        (createJob ⟨[], [], 0⟩
          { userId := some "u1", inputFileKey := "a.pdf"
            documentType := .EXPENSE }).2.jobs
        (uuidOf 0) "COMPLETED" ⟨some "o.xlsx", none⟩).map
          fun j => isTerminal j.status) = [true] ∧
    isTerminal "PENDING" = false := by
  refine ⟨?_, ?_, ?_⟩ <;> decide

/-- Claim C4 (amended): `updateJobStatus` overwrites a row's status with
the requested value unconditionally, so a job in a terminal state stays
terminal after an update exactly when the requested status is itself
terminal; the no-exit-from-terminal property is caller discipline, not
enforced by the entry point. -/
theorem updateJobStatus_overwrites_status (j : Job) (status : String)
    (e : UpdateExtra) (h : isTerminal j.status = true) :
    (applyUpdate j status e).status = status ∧
    isTerminal (applyUpdate j status e).status = isTerminal status ∧
    updateJobStatus [j] j.id status e = [applyUpdate j status e] := by
  refine ⟨rfl, rfl, ?_⟩
  simp [updateJobStatus]

/-- Witness for `updateJobStatus_overwrites_status` on a COMPLETED job. -/
theorem updateJobStatus_overwrites_status_witness :
    (applyUpdate
        { id := "j1", userId := "u1", inputFileKey := "a.pdf"
          inputFileType := "pdf", documentType := .EXPENSE
          status := "COMPLETED", outputFileKey := some "o.xlsx" }
        "PENDING" ⟨none, none⟩).status = "PENDING" ∧
    isTerminal (applyUpdate
        { id := "j1", userId := "u1", inputFileKey := "a.pdf"
          inputFileType := "pdf", documentType := .EXPENSE
          status := "COMPLETED", outputFileKey := some "o.xlsx" }
        "PENDING" ⟨none, none⟩).status = isTerminal "PENDING" ∧
    updateJobStatus
        [{ id := "j1", userId := "u1", inputFileKey := "a.pdf"
           inputFileType := "pdf", documentType := .EXPENSE
           status := "COMPLETED", outputFileKey := some "o.xlsx" }]
        "j1" "PENDING" ⟨none, none⟩
      = [applyUpdate
          { id := "j1", userId := "u1", inputFileKey := "a.pdf"
            inputFileType := "pdf", documentType := .EXPENSE
            status := "COMPLETED", outputFileKey := some "o.xlsx" }
          "PENDING" ⟨none, none⟩] :=
  updateJobStatus_overwrites_status _ "PENDING" ⟨none, none⟩ (by decide)

theorem find_over_fresh_append (l : List Job) (job : Job)
    (h : ∀ x ∈ l, x.id ≠ job.id) :
    (l ++ [job]).find? (fun j => j.id == job.id) = some job := by
  rw [List.find?_append]
  have h1 : l.find? (fun j => j.id == job.id) = none := by
    refine List.find?_eq_none.mpr ?_
    intro x hx
    simpa using h x hx
  simp [h1]

theorem find_owner_match_append (l : List Job) (job : Job) (uid : String)
    (h : ∀ x ∈ l, x.id ≠ job.id) (hu : job.userId = uid) :
    (l ++ [job]).find? (fun j => j.id == job.id && j.userId == uid)
      = some job := by
  rw [List.find?_append]
  have h1 : l.find? (fun j => j.id == job.id && j.userId == uid) = none := by
    refine List.find?_eq_none.mpr ?_
    intro x hx hcontra
    simp only [Bool.and_eq_true, beq_iff_eq] at hcontra
    exact h x hx hcontra.1
  simp [h1, hu]

theorem find_owner_mismatch_append (l : List Job) (job : Job) (uid : String)
    (h : ∀ x ∈ l, x.id ≠ job.id) (hu : job.userId ≠ uid) :
    (l ++ [job]).find? (fun j => j.id == job.id && j.userId == uid)
      = none := by
  rw [List.find?_append]
  have h1 : l.find? (fun j => j.id == job.id && j.userId == uid) = none := by
    refine List.find?_eq_none.mpr ?_
    intro x hx hcontra
    simp only [Bool.and_eq_true, beq_iff_eq] at hcontra
    exact h x hx hcontra.1
  have h2 : [job].find? (fun j => j.id == job.id && j.userId == uid)
      = none := by
    simp [hu]
  simp [h1, h2]

theorem fresh_id_not_in (st : SystemState) (hfresh : idsFresh st) :
    ∀ x ∈ st.jobs, x.id ≠ uuidOf st.nextUuid := by
  intro x hx
  obtain ⟨k, hk, hkid⟩ := hfresh x hx
  rw [hkid]
  intro hcontra
  exact absurd (uuidOf_injective hcontra) (Nat.ne_of_lt hk)

/-- Claim C1 (amended): a read with a truthy authenticated identity
returns the job exactly when the row matches both the id and that
identity — guest-owned rows are invisible to a distinct authenticated
identity — while a read with no identity (the guest endpoints) returns
the row matching the id regardless of its owner; a failed lookup yields
the not-found outcome (the `StatusReadResult` type carries no forbidden
variant). -/
theorem getJobById_visibility (jobs : List Job) (jobId : String)
    (ident : Option String) :
    ((getJobById jobs jobId ident).isSome ↔
      ∃ j ∈ jobs, j.id = jobId ∧
        (truthy ident = true → j.userId = ident.getD "")) ∧
    (getJobStatusWith jobs jobId ident = .notFound ↔
      getJobById jobs jobId ident = none) := by
  constructor
  · by_cases ht : truthy ident = true
    · simp [getJobById, ht, List.find?_isSome, and_assoc]
    · have ht' : truthy ident = false := by
        simpa using ht
      simp [getJobById, ht', List.find?_isSome, ht]
  · cases h : getJobById jobs jobId ident with
    | none => simp [getJobStatusWith, h]
    | some job =>
      simp only [getJobStatusWith, h]
      constructor
      · intro hcontra
        by_cases hf : job.status == "FAILED" <;> simp [hf] at hcontra
      · intro hcontra
        exact absurd hcontra (by simp)

/-- Claim C1 counterexample: the spec rule `specVisible` and the code
disagree in both directions — an authenticated identity `"u1"` cannot
read a guest-owned job (the spec rule says it can), and an anonymous
request reads a job owned by `"u2"` (the spec rule, with the anonymous
identity resolved to the sentinel, says it cannot). -/
theorem getJobById_visibility_counterexample :
    (specVisible
        { id := "j1", userId := "guest", inputFileKey := "a.pdf"
          inputFileType := "pdf", documentType := .EXPENSE
          status := "PENDING" } "u1" = true ∧
      getJobById
        [{ id := "j1", userId := "guest", inputFileKey := "a.pdf"
           inputFileType := "pdf", documentType := .EXPENSE
           status := "PENDING" }] "j1" (some "u1") = none) ∧
    (specVisible
        { id := "j2", userId := "u2", inputFileKey := "a.pdf"
          inputFileType := "pdf", documentType := .EXPENSE
          status := "PENDING" } "guest" = false ∧
      getJobById
        [{ id := "j2", userId := "u2", inputFileKey := "a.pdf"
           inputFileType := "pdf", documentType := .EXPENSE
           status := "PENDING" }] "j2" none
        = some { id := "j2", userId := "u2", inputFileKey := "a.pdf"
                 inputFileType := "pdf", documentType := .EXPENSE
                 status := "PENDING" }) := by
  refine ⟨⟨?_, ?_⟩, ?_, ?_⟩ <;> decide

/-- Claim C2 counterexample: a job submitted with no principal stores
`userId = "guest"`, but the authenticated status read by identity `"u1"`
returns not-found instead of succeeding as the claim demands. -/
theorem guest_job_read_counterexample :
    (createJob ⟨[], [], 0⟩
        { userId := none, inputFileKey := "a.pdf"
          documentType := .EXPENSE }).1.userId = "guest" ∧
    getJobStatus
        (createJob ⟨[], [], 0⟩
          { userId := none, inputFileKey := "a.pdf"
            documentType := .EXPENSE }).2.jobs
        "u1"
        (createJob ⟨[], [], 0⟩
          { userId := none, inputFileKey := "a.pdf"
            documentType := .EXPENSE }).1.id = .notFound := by
  refine ⟨?_, ?_⟩ <;> decide

/-- Claim C2 (amended): a job submitted with no principal stores the
sentinel `"guest"` as owner and its status is readable through the guest
endpoint (no identity) as well as by an authenticated status read whose
identity equals the sentinel itself, but an authenticated status read
under any other non-empty identity returns not-found. -/
theorem createGuestJob_readability (st : SystemState) (p : CreateJobParams)
    (uid : String) (hp : p.userId = none) (hfresh : idsFresh st)
    (hu1 : uid ≠ "guest") (hu2 : uid ≠ "") :
    (createJob st p).1.userId = "guest" ∧
    getGuestJobStatus (createJob st p).2.jobs (createJob st p).1.id
      = .ok (createJob st p).1.id "PENDING" ∧
    getJobStatus (createJob st p).2.jobs "guest" (createJob st p).1.id
      = .ok (createJob st p).1.id "PENDING" ∧
    getJobStatus (createJob st p).2.jobs uid (createJob st p).1.id
      = .notFound := by
  have hnot : ∀ x ∈ st.jobs, x.id ≠ (createJob st p).1.id :=
    fresh_id_not_in st hfresh
  have hjobs : (createJob st p).2.jobs = st.jobs ++ [(createJob st p).1] :=
    rfl
  have howner : (createJob st p).1.userId = "guest" := by
    simp [createJob, hp, jsOrString]
  refine ⟨howner, ?_, ?_, ?_⟩
  · have hfind : getJobById (createJob st p).2.jobs (createJob st p).1.id
        none = some (createJob st p).1 := by
      rw [getJobById, if_neg (by simp [truthy]), hjobs]
      exact find_over_fresh_append st.jobs _ hnot
    simp only [getGuestJobStatus, getJobStatusWith, hfind]
    have hstat : (createJob st p).1.status = "PENDING" := rfl
    simp [hstat]
  · have hfind : getJobById (createJob st p).2.jobs (createJob st p).1.id
        (some "guest") = some (createJob st p).1 := by
      rw [getJobById, if_pos (by decide), hjobs]
      exact find_owner_match_append st.jobs _ "guest" hnot howner
    simp only [getJobStatus, getJobStatusWith, hfind]
    have hstat : (createJob st p).1.status = "PENDING" := rfl
    simp [hstat]
  · have hownerNe : (createJob st p).1.userId ≠ uid := by
      simp only [createJob, hp, jsOrString]
      exact fun hcontra => hu1 hcontra.symm
    have hfind : getJobById (createJob st p).2.jobs (createJob st p).1.id
        (some uid) = none := by
      rw [getJobById, if_pos (by simp [truthy, hu2]), hjobs]
      exact find_owner_mismatch_append st.jobs _ uid hnot
        (by simpa using hownerNe)
    simp [getJobStatus, getJobStatusWith, hfind]

/-- Witness for `createGuestJob_readability` at the empty initial state. -/
theorem createGuestJob_readability_witness :
    (createJob ⟨[], [], 0⟩
        { userId := none, inputFileKey := "a.pdf"
          documentType := .EXPENSE }).1.userId = "guest" ∧
    getGuestJobStatus
        (createJob ⟨[], [], 0⟩
          { userId := none, inputFileKey := "a.pdf"
            documentType := .EXPENSE }).2.jobs
        (createJob ⟨[], [], 0⟩
          { userId := none, inputFileKey := "a.pdf"
            documentType := .EXPENSE }).1.id
      = .ok (createJob ⟨[], [], 0⟩
          { userId := none, inputFileKey := "a.pdf"
            documentType := .EXPENSE }).1.id "PENDING" ∧
    getJobStatus
        (createJob ⟨[], [], 0⟩
          { userId := none, inputFileKey := "a.pdf"
            documentType := .EXPENSE }).2.jobs
        "guest"
        (createJob ⟨[], [], 0⟩
          { userId := none, inputFileKey := "a.pdf"
            documentType := .EXPENSE }).1.id
      = .ok (createJob ⟨[], [], 0⟩
          { userId := none, inputFileKey := "a.pdf"
            documentType := .EXPENSE }).1.id "PENDING" ∧
    getJobStatus
        (createJob ⟨[], [], 0⟩
          { userId := none, inputFileKey := "a.pdf"
            documentType := .EXPENSE }).2.jobs
        "u1"
        (createJob ⟨[], [], 0⟩
          { userId := none, inputFileKey := "a.pdf"
            documentType := .EXPENSE }).1.id = .notFound :=
  createGuestJob_readability ⟨[], [], 0⟩
    { userId := none, inputFileKey := "a.pdf", documentType := .EXPENSE }
    "u1" rfl (by intro j hj; simp at hj) (by decide) (by decide)

/-- Claim C6: a valid submission persists and returns a job whose status
is PENDING and whose id is freshly drawn (absent from the table before
the call), and the endpoint's response is exactly the pair of the job's
id and status (the `CreateJobResponse` record has no other field). -/
theorem createJobEndpoint_valid (st : SystemState) (uid : Option String)
    (dto : RawCreateJobDto) (dt : DocumentType)
    (hdt : parseDocumentType dto.documentType = some dt)
    (hkey : dto.inputFileKey ≠ "") (hfresh : idsFresh st) :
    (createJobEndpoint st uid dto).1
      = .created
          { jobId := (createJob st
              { userId := uid, inputFileKey := dto.inputFileKey
                documentType := dt }).1.id
            status := "PENDING" } ∧
    (createJobEndpoint st uid dto).2
      = (createJob st
          { userId := uid, inputFileKey := dto.inputFileKey
            documentType := dt }).2 ∧
    (createJob st
        { userId := uid, inputFileKey := dto.inputFileKey
          documentType := dt }).1.status = "PENDING" ∧
    (createJob st
        { userId := uid, inputFileKey := dto.inputFileKey
          documentType := dt }).1
      ∈ (createJob st
          { userId := uid, inputFileKey := dto.inputFileKey
            documentType := dt }).2.jobs ∧
    (createJob st
        { userId := uid, inputFileKey := dto.inputFileKey
          documentType := dt }).1.id ∉ st.jobs.map Job.id := by
  refine ⟨?_, ?_, rfl, ?_, ?_⟩
  · simp only [createJobEndpoint, hdt]
    rw [if_neg hkey]
    rfl
  · simp only [createJobEndpoint, hdt]
    rw [if_neg hkey]
  · show _ ∈ st.jobs ++ [_]
    simp only [List.mem_append, List.mem_singleton]
    exact Or.inr rfl
  · intro hmem
    simp only [List.mem_map] at hmem
    obtain ⟨x, hx, hxid⟩ := hmem
    exact fresh_id_not_in st hfresh x hx hxid

/-- Witness for `createJobEndpoint_valid` at the empty initial state. -/
theorem createJobEndpoint_valid_witness :
    (createJobEndpoint ⟨[], [], 0⟩ none
        { inputFileKey := "a.pdf", documentType := "EXPENSE" }).1
      = .created
          { jobId := (createJob ⟨[], [], 0⟩
              { userId := none, inputFileKey := "a.pdf"
                documentType := .EXPENSE }).1.id
            status := "PENDING" } ∧
    (createJobEndpoint ⟨[], [], 0⟩ none
        { inputFileKey := "a.pdf", documentType := "EXPENSE" }).2
      = (createJob ⟨[], [], 0⟩
          { userId := none, inputFileKey := "a.pdf"
            documentType := .EXPENSE }).2 ∧
    (createJob ⟨[], [], 0⟩
        { userId := none, inputFileKey := "a.pdf"
          documentType := .EXPENSE }).1.status = "PENDING" ∧
    (createJob ⟨[], [], 0⟩
        { userId := none, inputFileKey := "a.pdf"
          documentType := .EXPENSE }).1
      ∈ (createJob ⟨[], [], 0⟩
          { userId := none, inputFileKey := "a.pdf"
            documentType := .EXPENSE }).2.jobs ∧
    (createJob ⟨[], [], 0⟩
        { userId := none, inputFileKey := "a.pdf"
          documentType := .EXPENSE }).1.id
      ∉ (⟨[], [], 0⟩ : SystemState).jobs.map Job.id :=
  createJobEndpoint_valid ⟨[], [], 0⟩ none
    { inputFileKey := "a.pdf", documentType := "EXPENSE" } .EXPENSE
    rfl (by decide) (by intro j hj; simp at hj)

/-- Claim C8: for a job visible to the requester, the download outcome is
a function of its status — PENDING and PROCESSING give the distinct
still-processing outcome, FAILED gives the failed outcome with a
non-empty diagnostic and never the URL outcome, COMPLETED gives the
presigned GET URL for the job's output key. -/
theorem downloadJobResult_by_status (bucket : String) (jobs : List Job)
    (jobId : String) (ident : Option String) (j : Job)
    (hfind : getJobById jobs jobId ident = some j) :
    ((j.status = "PENDING" ∨ j.status = "PROCESSING") →
      downloadJobResultWith bucket jobs jobId ident
        = .stillProcessing j.status) ∧
    (j.status = "FAILED" →
      downloadJobResultWith bucket jobs jobId ident
        = .failedOutcome (jsOrString j.errorMessage "Processing failed") ∧
      jsOrString j.errorMessage "Processing failed" ≠ "" ∧
      (downloadJobResultWith bucket jobs jobId ident).isOkUrl = false) ∧
    (j.status = "COMPLETED" →
      downloadJobResultWith bucket jobs jobId ident
        = .okUrl (generateDownloadUrl bucket (j.outputFileKey.getD ""))) := by
  refine ⟨?_, ?_, ?_⟩
  · rintro (h | h) <;> simp [downloadJobResultWith, hfind, h]
  · intro h
    have hres : downloadJobResultWith bucket jobs jobId ident
        = .failedOutcome (jsOrString j.errorMessage "Processing failed") := by
      simp [downloadJobResultWith, hfind, h]
    exact ⟨hres, jsOrString_ne_empty _ (by decide),
      by rw [hres]; rfl⟩
  · intro h
    simp [downloadJobResultWith, hfind, h]

/-- Witness for `downloadJobResult_by_status` on a concrete FAILED job. -/
theorem downloadJobResult_by_status_witness :
    ((failedJob.status = "PENDING" ∨ failedJob.status = "PROCESSING") →
      downloadJobResultWith "bucket" [failedJob] "j1" none
        = .stillProcessing failedJob.status) ∧
    (failedJob.status = "FAILED" →
      downloadJobResultWith "bucket" [failedJob] "j1" none
        = .failedOutcome
            (jsOrString failedJob.errorMessage "Processing failed") ∧
      jsOrString failedJob.errorMessage "Processing failed" ≠ "" ∧
      (downloadJobResultWith "bucket" [failedJob] "j1" none).isOkUrl
        = false) ∧
    (failedJob.status = "COMPLETED" →
      downloadJobResultWith "bucket" [failedJob] "j1" none
        = .okUrl (generateDownloadUrl "bucket"
            (failedJob.outputFileKey.getD ""))) :=
  downloadJobResult_by_status "bucket" [failedJob] "j1" none failedJob
    (by decide)

/-- Claim C3 counterexample: driving a created job to COMPLETED through
`updateJobStatus` with no extra fields leaves `outputFileKey` empty while
the status is COMPLETED, violating the claimed invariant. -/
theorem jobInvariant_counterexample :
    (updateJobStatus
        (createJob ⟨[], [], 0⟩
          { userId := some "u1", inputFileKey := "a.pdf"
            documentType := .EXPENSE }).2.jobs
        (uuidOf 0) "COMPLETED" ⟨none, none⟩).map Job.status
      = ["COMPLETED"] ∧
    (updateJobStatus
        (createJob ⟨[], [], 0⟩
          { userId := some "u1", inputFileKey := "a.pdf"
            documentType := .EXPENSE }).2.jobs
        (uuidOf 0) "COMPLETED" ⟨none, none⟩).map Job.outputFileKey
      = [none] ∧
    (updateJobStatus
        (createJob ⟨[], [], 0⟩
          { userId := some "u1", inputFileKey := "a.pdf"
            documentType := .EXPENSE }).2.jobs
        (uuidOf 0) "COMPLETED" ⟨none, none⟩).all jobInvariant = false := by
  refine ⟨?_, ?_, ?_⟩ <;> decide

theorem jobInvariant_applyUpdate (j : Job) (s : String) (e : UpdateExtra)
    (hj : jobInvariant j = true) (ha : allowedUpdate j s e = true) :
    jobInvariant (applyUpdate j s e) = true := by
  obtain ⟨eo, ee⟩ := e
  simp only [jobInvariant, Bool.and_eq_true, beq_iff_eq] at hj
  obtain ⟨hinv1, hinv2⟩ := hj
  simp only [allowedUpdate, Bool.or_eq_true, Bool.and_eq_true,
    beq_iff_eq] at ha
  rcases ha with
    (⟨⟨⟨hs, hst⟩, ho⟩, he⟩ | ⟨⟨⟨hs, hst⟩, he⟩, ho⟩) | ⟨⟨⟨hs, hst⟩, ho⟩, he⟩
  · subst hs; subst ho; subst he
    have h1 : optNonEmpty j.outputFileKey = false := by
      rw [hinv1, hst]; decide
    have h2 : optNonEmpty j.errorMessage = false := by
      rw [hinv2, hst]; decide
    show ((optNonEmpty j.outputFileKey == ("PROCESSING" == "COMPLETED"))
        && (optNonEmpty j.errorMessage == ("PROCESSING" == "FAILED"))) = true
    rw [h1, h2]; decide
  · subst hs; subst he
    have h2 : optNonEmpty j.errorMessage = false := by
      rw [hinv2, hst]; decide
    cases eo with
    | none => simp [optNonEmpty] at ho
    | some v =>
      have hv : optNonEmpty (some v) = true := ho
      show ((optNonEmpty (some v) == ("COMPLETED" == "COMPLETED"))
          && (optNonEmpty j.errorMessage == ("COMPLETED" == "FAILED"))) = true
      rw [h2, hv]; decide
  · subst hs; subst ho
    have h1 : optNonEmpty j.outputFileKey = false := by
      rcases hst with hst | hst <;> rw [hinv1, hst] <;> decide
    cases ee with
    | none => simp [optNonEmpty] at he
    | some v =>
      have hv : optNonEmpty (some v) = true := he
      show ((optNonEmpty j.outputFileKey == ("FAILED" == "COMPLETED"))
          && (optNonEmpty (some v) == ("FAILED" == "FAILED"))) = true
      rw [h1, hv]; decide

theorem jobInvariant_applyUpdates (us : List (String × UpdateExtra))
    (j : Job) (hj : jobInvariant j = true)
    (hs : allowedSeq j us = true) :
    jobInvariant (applyUpdates j us) = true := by
  induction us generalizing j with
  | nil => simpa [applyUpdates] using hj
  | cons u rest ih =>
    obtain ⟨u1, u2⟩ := u
    simp only [allowedSeq, Bool.and_eq_true] at hs
    exact ih _ (jobInvariant_applyUpdate _ _ _ hj hs.1) hs.2

/-- Claim C3 (amended): the iff invariant — `outputFileKey` non-empty iff
COMPLETED and `errorMessage` non-empty iff FAILED, hence never both set —
holds at every point for a created job under every update sequence that
follows the transition table and sets exactly the field its target state
requires; `updateJobStatus` itself does not enforce this discipline. -/
theorem createJob_invariant_under_allowed_updates (st : SystemState)
    (p : CreateJobParams) (us : List (String × UpdateExtra))
    (hs : allowedSeq (createJob st p).1 us = true) :
    jobInvariant (applyUpdates (createJob st p).1 us) = true :=
  jobInvariant_applyUpdates us _ rfl hs

/-- Witness for `createJob_invariant_under_allowed_updates` on the
scenario PENDING, PROCESSING, COMPLETED with an output key. -/
theorem createJob_invariant_under_allowed_updates_witness :
    jobInvariant (applyUpdates
        (createJob ⟨[], [], 0⟩
          { userId := none, inputFileKey := "a.pdf"
            documentType := .EXPENSE }).1
        [("PROCESSING", ⟨none, none⟩),
         ("COMPLETED", ⟨some "out.xlsx", none⟩)]) = true :=
  createJob_invariant_under_allowed_updates ⟨[], [], 0⟩
    { userId := none, inputFileKey := "a.pdf", documentType := .EXPENSE }
    [("PROCESSING", ⟨none, none⟩), ("COMPLETED", ⟨some "out.xlsx", none⟩)]
    (by decide)

end DocumentAI
